import Mathlib

/-!
Shallow embedding of the proctoring frontend's core pipeline:

* `src/frontend/src/proctor/types.ts` — event enums and record shapes;
* `src/frontend/src/App.tsx` — per-category flag gating (`isFlagEnabled`)
  and the per-key cooldown throttle (`postEvent`);
* `src/frontend/src/proctor/IndividualProctor.tsx` — the audio hysteresis
  classifier, the gaze rule, and the YOLO object-detector sampling rules;
* `TeamProctor` (second part of the same source file) — team-mode candidate
  rules (capacity, presence, gaze);
* the utils module (`src/unnamed/part_001`) — `computeFaceMetrics` and the
  geometry helpers.

JavaScript numbers are modelled as `ℚ` where the code only compares and adds
(timestamps, RMS levels, detector scores) and as `ℝ` where the code calls
`Math.hypot` / `Math.asin` (the face-metric geometry); `ℝ` has no NaN or
infinite values, so "never NaN/infinite" holds by the model. Timestamps are
`ℤ` milliseconds. A JS `number | undefined` table lookup is `Option ℤ`.
-/

set_option maxRecDepth 4000

namespace Proctor

/-- Event kind enum, from `types.ts`: `"video" | "audio" | "system"`. -/
inductive EventKind where
  | video
  | audio
  | system
deriving DecidableEq

/-- Severity enum, from `types.ts`: `"info" | "warn" | "error"`. -/
inductive Severity where
  | info
  | warn
  | error
deriving DecidableEq

/-- Event category enum, from `types.ts` (`EventCategory`). -/
inductive EventCategory where
  | audio
  | gaze
  | faces
  | gadgets
  | capacity
  | presence
  | system
deriving DecidableEq

/-- An admitted event, from `types.ts` (`EventRecord`). The source stores
`ts` as an ISO string of `Date.now()` and `id` as `` `${now}-${random}` ``;
we model `ts` as the epoch-millisecond integer and omit the random `id`. -/
structure EventRecord where
  ts : ℤ
  message : String
  severity : Severity
  kind : EventKind
deriving DecidableEq

/-- A candidate event: the argument tuple the derivation rules pass to
`postEvent` (key, category, kind, severity, message). -/
structure EventCandidate where
  key : String
  category : EventCategory
  kind : EventKind
  severity : Severity
  message : String
deriving DecidableEq

/-- Per-category toggles for individual mode, from `types.ts`
(`IndividualFlags`). -/
structure IndividualFlags where
  audio : Bool
  gaze : Bool
  faces : Bool
  gadgets : Bool
deriving DecidableEq

/-- Per-category toggles for team mode, from `types.ts` (`TeamFlags`). -/
structure TeamFlags where
  capacity : Bool
  presence : Bool
  gaze : Bool
deriving DecidableEq

/-- Operating mode, from `App.tsx` (`type ProctorMode`). -/
inductive ProctorMode where
  | individual
  | team
deriving DecidableEq

/-- The `App` component state relevant to event emission, from `App.tsx`:
`mode`, the two flag records, the local `events` list and the throttle table
`lastEventRef.current` (a JS object mapping keys to timestamps). -/
structure AppState where
  mode : ProctorMode
  individualFlags : IndividualFlags
  teamFlags : TeamFlags
  events : List EventRecord
  lastEmitted : String → Option ℤ

/-- Function `isFlagEnabled` from `App.tsx` lines 89–97: in individual mode look the
category up in `individualFlags`, in team mode in `teamFlags`; a category
that is not a key of the active record falls back to `?? true`. -/
def isFlagEnabled (mode : ProctorMode) (iFlags : IndividualFlags)
    (tFlags : TeamFlags) (category : EventCategory) : Bool :=
  match mode with
  | ProctorMode.individual =>
      match category with
      | EventCategory.audio => iFlags.audio
      | EventCategory.gaze => iFlags.gaze
      | EventCategory.faces => iFlags.faces
      | EventCategory.gadgets => iFlags.gadgets
      | _ => true
  | ProctorMode.team =>
      match category with
      | EventCategory.capacity => tFlags.capacity
      | EventCategory.presence => tFlags.presence
      | EventCategory.gaze => tFlags.gaze
      | _ => true

/-- The admit path of `postEvent` (`App.tsx` lines 107–116): stamp the
record with `now`, set `lastEmitted[key] = now` and append the record,
keeping the last 19 previous entries (`current.slice(-19)`). -/
def throttleAdmit (s : AppState) (key : String) (kind : EventKind)
    (severity : Severity) (message : String) (now : ℤ) :
    AppState × Option EventRecord :=
  let entry : EventRecord :=
    { ts := now, message := message, severity := severity, kind := kind }
  ({ s with
      lastEmitted := fun k => if k = key then some now else s.lastEmitted k,
      events := s.events.drop (s.events.length - 19) ++ [entry] },
   some entry)

/-- The cooldown decision of `postEvent` (`App.tsx` lines 102–116):
`const last = lastEventRef.current[key]; if (last && now - last < 4000)
return;`. Note the JS truthiness test `last && …`: a stored timestamp equal
to `0` is falsy, so it never suppresses, exactly like an absent key. -/
def throttleStep (s : AppState) (key : String) (kind : EventKind)
    (severity : Severity) (message : String) (now : ℤ) :
    AppState × Option EventRecord :=
  match s.lastEmitted key with
  | some last =>
      if last ≠ 0 ∧ now - last < 4000 then (s, none)
      else throttleAdmit s key kind severity message now
  | none => throttleAdmit s key kind severity message now

/-- Function `postEvent` from `App.tsx` lines 99–135: drop the candidate when its
category's flag is disabled, otherwise run the cooldown throttle. -/
def postEvent (s : AppState) (key : String) (category : EventCategory)
    (kind : EventKind) (severity : Severity) (message : String) (now : ℤ) :
    AppState × Option EventRecord :=
  if isFlagEnabled s.mode s.individualFlags s.teamFlags category = true then
    throttleStep s key kind severity message now
  else (s, none)

/-- The initial `App` state: mode `individual`, `defaultIndividualFlags`
(all true), `defaultTeamFlags` (capacity and presence true, gaze false),
no events, empty throttle table (`App.tsx` lines 82–87). -/
def freshState : AppState :=
  { mode := ProctorMode.individual,
    individualFlags := { audio := true, gaze := true, faces := true, gadgets := true },
    teamFlags := { capacity := true, presence := true, gaze := false },
    events := [],
    lastEmitted := fun _ => none }

/-- An individual-mode state with every flag switched off and an empty
throttle table. -/
def allFlagsOffIndividual : AppState :=
  { mode := ProctorMode.individual,
    individualFlags := { audio := false, gaze := false, faces := false, gadgets := false },
    teamFlags := { capacity := false, presence := false, gaze := false },
    events := [],
    lastEmitted := fun _ => none }

/-- A team-mode state with every flag switched off and an empty throttle
table. -/
def allFlagsOffTeam : AppState :=
  { mode := ProctorMode.team,
    individualFlags := { audio := false, gaze := false, faces := false, gadgets := false },
    teamFlags := { capacity := false, presence := false, gaze := false },
    events := [],
    lastEmitted := fun _ => none }

end Proctor

namespace IndividualProctor

open Proctor

/-- Constant `speechThresholdOn` from `IndividualProctor.tsx` line 233. -/
def speechThresholdOn : ℚ := 0.05

/-- Constant `speechThresholdOff` from `IndividualProctor.tsx` line 234. -/
def speechThresholdOff : ℚ := 0.025

/-- The two speech transitions the audio branch can emit
(`speech-on` / `speech-off`). -/
inductive AudioTransition where
  | speechOn
  | speechOff
deriving DecidableEq

/-- One tick of the hysteresis classifier, `IndividualProctor.tsx` lines
298–304: from silence, `rms > speechThresholdOn` switches to speech and
emits `speech-on`; from speech, `rms < speechThresholdOff` switches to
silence and emits `speech-off`; otherwise the state is unchanged and
nothing is emitted. Returns (next `speechActive`, emitted transition). -/
def audioStep (sp : Bool) (rms : ℚ) : Bool × Option AudioTransition :=
  if sp = false ∧ rms > speechThresholdOn then
    (true, some AudioTransition.speechOn)
  else if sp = true ∧ rms < speechThresholdOff then
    (false, some AudioTransition.speechOff)
  else (sp, none)

/-- Iterate `audioStep` over a per-tick RMS sequence, collecting the
emitted transition (or `none`) at each index. -/
def runAudio (init : Bool) : List ℚ → Bool × List (Option AudioTransition)
  | [] => (init, [])
  | rms :: rest =>
      let step := audioStep init rms
      let tail := runAudio step.1 rest
      (tail.1, step.2 :: tail.2)

/-- One YOLO detection, from the `@xenova/transformers` object-detection
pipeline output consumed by `runDetector`: `{ label, score }` (the bounding
box is unused by the event rules). -/
structure Detection where
  label : String
  score : ℚ
deriving DecidableEq

/-- Constant `gadgetLabels` from `IndividualProctor.tsx` line 17. -/
def gadgetLabels : List String :=
  ["cell phone", "laptop", "tv", "remote", "keyboard", "mouse", "tablet", "monitor"]

/-- The candidate decisions of `runDetector` (`IndividualProctor.tsx` lines
353–371) on one object-detector sample tick: count `person` detections with
score ≥ 0.45; find the first detection whose label is in `gadgetLabels` with
score ≥ 0.35; emit `yolo-multi-person` when the faces flag is on and more
than one person was seen, and `yolo-gadget` when the gadgets flag is on and
a gadget was found. The posted gadget message is
`` `Gadget detected: ${label}` `` — the score is not part of it. -/
def runDetectorCandidates (flags : Proctor.IndividualFlags)
    (detections : List Detection) : List Proctor.EventCandidate :=
  let persons :=
    (detections.filter (fun d => d.label == "person" && decide (d.score ≥ 0.45))).length
  let gadget :=
    detections.find? (fun d => gadgetLabels.contains d.label && decide (d.score ≥ 0.35))
  (if flags.faces = true ∧ persons > 1 then
      [{ key := "yolo-multi-person", category := Proctor.EventCategory.faces,
         kind := Proctor.EventKind.video, severity := Proctor.Severity.warn,
         message := toString persons ++ " people detected in frame (YOLO)" }]
    else []) ++
  (match gadget with
   | some g =>
       if flags.gadgets = true then
         [{ key := "yolo-gadget", category := Proctor.EventCategory.gadgets,
            kind := Proctor.EventKind.video, severity := Proctor.Severity.warn,
            message := "Gadget detected: " ++ g.label }]
       else []
   | none => [])

/-- The on-screen "last gadget hit" text set by `runDetector` line 363:
`` `${label} (${Math.round(gadget.score * 100)}%)` ``. This UI string, not
the posted event message, is where the confidence appears. -/
def gadgetHitText (g : Detection) : String :=
  g.label ++ " (" ++ toString (round (g.score * 100)) ++ "%)"

end IndividualProctor

namespace Proctor

/-- The `IndividualProctor` component state relevant to the audio
classifier: `speechActive`, declared `useState(false)` at
`IndividualProctor.tsx` line 103. -/
structure IndividualSessionState where
  speechActive : Bool
deriving DecidableEq

/-- The state a freshly mounted `IndividualProctor` starts from:
`useState(false)` initializes `speechActive` to false. -/
def initIndividualSessionState : IndividualSessionState :=
  { speechActive := false }

/-- The session-level state: the active mode and the individual proctor's
component state. -/
structure SystemState where
  mode : ProctorMode
  individual : IndividualSessionState
deriving DecidableEq

/-- Models the conditional rendering of `App.tsx` lines 219–223:
`mode === "individual" ? <IndividualProctor …/> : <TeamProctor …/>`.
Changing the mode unmounts the current proctor component, which discards
its local React state; the proctor mounted for the new mode (or after a
switch back) re-initializes its `useState` hooks to their initial values. -/
def switchMode (s : SystemState) (next : ProctorMode) : SystemState :=
  if next = s.mode then s
  else { mode := next, individual := initIndividualSessionState }

/-- An individual-mode session whose classifier is (stale) in the speech
state. -/
def staleSpeechState : SystemState :=
  { mode := ProctorMode.individual, individual := { speechActive := true } }

end Proctor

namespace Utils

open scoped Classical

/-- A face landmark, normalized to the frame (`FaceLandmarks` entries from
MediaPipe): only `x` and `y` are read by the metric code. -/
structure LandmarkPoint where
  x : ℝ
  y : ℝ

/-- One detected face's ordered landmark sequence. -/
abbrev FaceLandmarks := List LandmarkPoint

/-- Record `FaceMetrics` from the utils module: `{ distanceCm, yawDeg }`. -/
structure FaceMetrics where
  distanceCm : ℝ
  yawDeg : ℝ

/-- Constant `DEFAULT_IPD_CM = 6.3`. -/
def DEFAULT_IPD_CM : ℝ := 6.3

/-- Constant `BASELINE_VIDEO_WIDTH = 1280`. -/
def BASELINE_VIDEO_WIDTH : ℝ := 1280

/-- Constant `BASELINE_FOCAL_PX = 750`. -/
def BASELINE_FOCAL_PX : ℝ := 750

/-- Constant `HEAD_YAW_MAX_DEG = 90`. -/
def HEAD_YAW_MAX_DEG : ℝ := 90

/-- Constant `RAD2DEG = 180 / Math.PI`. -/
noncomputable def RAD2DEG : ℝ := 180 / Real.pi

/-- Constant `YAW_OFFSET_SCALE = 0.55`. -/
def YAW_OFFSET_SCALE : ℝ := 0.55

/-- Constant `DISTANCE_RANGE_CM = { min: 10, max: 150 }`. -/
structure DistanceRange where
  min : ℝ
  max : ℝ

def DISTANCE_RANGE_CM : DistanceRange := { min := 10, max := 150 }

/-- Constant `LANDMARK_INDEX = { rightEyeOuter: 33, leftEyeOuter: 263, noseTip: 1 }`. -/
structure LandmarkIndexMap where
  rightEyeOuter : ℕ
  leftEyeOuter : ℕ
  noseTip : ℕ

def LANDMARK_INDEX : LandmarkIndexMap :=
  { rightEyeOuter := 33, leftEyeOuter := 263, noseTip := 1 }

/-- Function `clamp(value, min, max) = Math.min(Math.max(value, min), max)`. -/
noncomputable def clamp (value lo hi : ℝ) : ℝ := min (max value lo) hi

/-- Function `distance2D(a, b) = Math.hypot(a.x - b.x, a.y - b.y)`. -/
noncomputable def distance2D (a b : LandmarkPoint) : ℝ :=
  let dx := a.x - b.x
  let dy := a.y - b.y
  Real.sqrt (dx ^ 2 + dy ^ 2)

/-- Function `getLandmark(landmarks, index) = landmarks[index] ?? null`. -/
def getLandmark (landmarks : FaceLandmarks) (index : ℕ) : Option LandmarkPoint :=
  landmarks[index]?

/-- Function `computeFaceMetrics` from the utils module (`src/unnamed/part_001`
lines 38–69). Returns `none` when `!videoWidth` (width 0), when any of the
three required landmarks is absent, or when `!interpupilNorm` (the two eye
landmarks coincide); otherwise the clamped distance/yaw pair. The source
fetches the three landmarks first and tests them in one
`if (!leftEye || !rightEye || !noseTip)`; the match below is the same
test. -/
noncomputable def computeFaceMetrics (landmarks : FaceLandmarks)
    (videoWidth : ℝ) : Option FaceMetrics :=
  if videoWidth = 0 then none
  else
    match getLandmark landmarks LANDMARK_INDEX.leftEyeOuter,
          getLandmark landmarks LANDMARK_INDEX.rightEyeOuter,
          getLandmark landmarks LANDMARK_INDEX.noseTip with
    | some leftEye, some rightEye, some noseTip =>
        let interpupilNorm := distance2D leftEye rightEye
        if interpupilNorm = 0 then none
        else
          let interpupilPx := interpupilNorm * videoWidth
          let widthScale := videoWidth / BASELINE_VIDEO_WIDTH
          let effectiveFocalPx := BASELINE_FOCAL_PX * widthScale
          let distanceCmRaw := (DEFAULT_IPD_CM * effectiveFocalPx) / interpupilPx
          let distanceCm := clamp distanceCmRaw DISTANCE_RANGE_CM.min DISTANCE_RANGE_CM.max
          let eyeMidX := (leftEye.x + rightEye.x) / 2
          let noseOffset := noseTip.x - eyeMidX
          let yawRatio := clamp (noseOffset / (interpupilNorm * YAW_OFFSET_SCALE)) (-1) 1
          let yawDegRaw :=
            clamp (-(Real.arcsin yawRatio) * RAD2DEG) (-HEAD_YAW_MAX_DEG) HEAD_YAW_MAX_DEG
          some { distanceCm := distanceCm, yawDeg := yawDegRaw }
    | _, _, _ => none

/-- A 264-entry landmark list whose entries all coincide: every index,
including both eye indices, fetches the same point. -/
noncomputable def coincidentFace : FaceLandmarks :=
  List.replicate 264 { x := 1/2, y := 1/2 }

/-- A second coincident-eyes landmark list, at a different point. -/
noncomputable def coincidentFace2 : FaceLandmarks :=
  List.replicate 264 { x := 3/10, y := 2/5 }

/-- The spec's synthetic face: eyes at normalized (0.4, 0.5) / (0.6, 0.5)
(indices 33 and 263) and nose at (0.5, 0.5) (index 1). -/
noncomputable def sampleFace : FaceLandmarks :=
  ((List.replicate 264 { x := (1:ℝ)/2, y := 1/2 }).set 33 { x := 2/5, y := 1/2 }).set
    263 { x := 3/5, y := 1/2 }

end Utils

namespace IndividualProctor

open scoped Classical

/-- Constant `GAZE_YAW_THRESHOLD = 35` (`IndividualProctor.tsx` line 14). -/
def GAZE_YAW_THRESHOLD : ℝ := 35

/-- The gaze rule of `analyze` (`IndividualProctor.tsx` lines 263–270):
with the primary face's metrics computed, post `yaw` (category `gaze`,
kind `video`, severity `warn`) when the gaze flag is on and
`Math.abs(metrics.yawDeg) > GAZE_YAW_THRESHOLD`. -/
noncomputable def gazeCandidate (gazeFlag : Bool)
    (metrics : Option Utils.FaceMetrics) : Option Proctor.EventCandidate :=
  match metrics with
  | some m =>
      if gazeFlag = true ∧ |m.yawDeg| > GAZE_YAW_THRESHOLD then
        some { key := "yaw", category := Proctor.EventCategory.gaze,
               kind := Proctor.EventKind.video, severity := Proctor.Severity.warn,
               message := "Viewer looking away from screen" }
      else none
  | none => none

end IndividualProctor

namespace TeamProctor

open scoped Classical

/-- Constant `GAZE_YAW_THRESHOLD = 40` (TeamProctor source, line 479 of the
concatenated file). -/
def GAZE_YAW_THRESHOLD : ℝ := 40

/-- Constant `NO_FACE_GRACE_MS = 5000`. -/
def NO_FACE_GRACE_MS : ℤ := 5000

/-- The team gaze rule (TeamProctor `analyze`, lines 656–659): post
`team-yaw` when the gaze flag is on, metrics were computed, and
`Math.abs(metrics.yawDeg) > GAZE_YAW_THRESHOLD`. -/
noncomputable def gazeCandidate (gazeFlag : Bool)
    (metrics : Option Utils.FaceMetrics) : Option Proctor.EventCandidate :=
  match metrics with
  | some m =>
      if gazeFlag = true ∧ |m.yawDeg| > GAZE_YAW_THRESHOLD then
        some { key := "team-yaw", category := Proctor.EventCategory.gaze,
               kind := Proctor.EventKind.video, severity := Proctor.Severity.warn,
               message := "Primary viewer looking away" }
      else none
  | none => none

/-- The candidate decisions of one TeamProctor `analyze` tick (lines
629–663): `team-overflow` when the capacity flag is on and
`count > teamLimit`; `team-empty` when the presence flag is on,
`count === 0` and `Date.now() - lastFaceTsRef.current > NO_FACE_GRACE_MS`;
and the gaze rule on the primary (first) face. `lastFaceTs` is the
last-face timestamp as read by this tick: the source refreshes it first
when `count > 0`, which never changes the `count === 0` branch that uses
it. -/
noncomputable def analyzeCandidates (flags : Proctor.TeamFlags) (teamLimit : ℕ)
    (faces : List Utils.FaceLandmarks) (videoWidth : ℝ) (now lastFaceTs : ℤ) :
    List Proctor.EventCandidate :=
  let count := faces.length
  (if flags.capacity = true ∧ count > teamLimit then
      [{ key := "team-overflow", category := Proctor.EventCategory.capacity,
         kind := Proctor.EventKind.video, severity := Proctor.Severity.warn,
         message := toString count ++ " people detected (limit " ++ toString teamLimit ++ ")" }]
    else []) ++
  (if flags.presence = true ∧ count = 0 ∧ now - lastFaceTs > NO_FACE_GRACE_MS then
      [{ key := "team-empty", category := Proctor.EventCategory.presence,
         kind := Proctor.EventKind.video, severity := Proctor.Severity.warn,
         message := "No teammates detected" }]
    else []) ++
  (match faces.head? with
   | some primaryFace =>
       (gazeCandidate flags.gaze (Utils.computeFaceMetrics primaryFace videoWidth)).toList
   | none => [])

end TeamProctor

open Proctor Utils

/-! ### Helper lemmas -/

/-- Behaviour of `throttleStep` when the key is absent from the table: admit. -/
theorem throttleStep_none (s : AppState) (key : String) (kind : EventKind)
    (sev : Severity) (msg : String) (now : ℤ)
    (hk : s.lastEmitted key = none) :
    throttleStep s key kind sev msg now = throttleAdmit s key kind sev msg now := by
  unfold throttleStep
  rw [hk]

/-- Behaviour of `throttleStep` when the key holds a stored timestamp: suppress exactly
when the timestamp is truthy (nonzero) and inside the cooldown window. -/
theorem throttleStep_some (s : AppState) (key : String) (kind : EventKind)
    (sev : Severity) (msg : String) (now last : ℤ)
    (hk : s.lastEmitted key = some last) :
    throttleStep s key kind sev msg now =
      if last ≠ 0 ∧ now - last < 4000 then (s, none)
      else throttleAdmit s key kind sev msg now := by
  unfold throttleStep
  rw [hk]

/-- The throttle produces a record exactly when the key is absent, the
stored timestamp is 0 (falsy), or the cooldown has elapsed. -/
theorem throttleStep_isSome_iff (s : AppState) (key : String)
    (kind : EventKind) (sev : Severity) (msg : String) (now : ℤ) :
    (throttleStep s key kind sev msg now).2.isSome = true ↔
      (s.lastEmitted key = none ∨ s.lastEmitted key = some 0 ∨
        ∃ last, s.lastEmitted key = some last ∧ 4000 ≤ now - last) := by
  rcases hk : s.lastEmitted key with _ | last
  · rw [throttleStep_none s key kind sev msg now hk]
    simp [throttleAdmit]
  · rw [throttleStep_some s key kind sev msg now last hk]
    by_cases h0 : last ≠ 0 ∧ now - last < 4000
    · rw [if_pos h0]
      simp only [Option.isSome_none, Bool.false_eq_true, false_iff]
      rintro (hnone | hzero | ⟨l, hl, hge⟩)
      · exact Option.noConfusion hnone
      · rcases Option.some.injEq .. ▸ hzero with rfl
        exact h0.1 rfl
      · rcases Option.some.injEq .. ▸ hl with rfl
        omega
    · rw [if_neg h0]
      simp only [throttleAdmit, Option.isSome_some, true_iff]
      by_cases hz : last = 0
      · exact Or.inr (Or.inl (by rw [hz]))
      · refine Or.inr (Or.inr ⟨last, rfl, ?_⟩)
        push_neg at h0
        have := h0 hz
        omega

/-- An admission stamps the key's clock with `now`. -/
theorem throttleStep_admit_updates (s : AppState) (key : String)
    (kind : EventKind) (sev : Severity) (msg : String) (now : ℤ)
    (h : (throttleStep s key kind sev msg now).2.isSome = true) :
    (throttleStep s key kind sev msg now).1.lastEmitted key = some now := by
  rcases hk : s.lastEmitted key with _ | last
  · rw [throttleStep_none s key kind sev msg now hk]
    simp [throttleAdmit]
  · rw [throttleStep_some s key kind sev msg now last hk] at h ⊢
    by_cases h0 : last ≠ 0 ∧ now - last < 4000
    · rw [if_pos h0] at h
      exact absurd h (by simp)
    · rw [if_neg h0]
      simp [throttleAdmit]

/-- The throttle never touches another key's clock. -/
theorem throttleStep_other_keys (s : AppState) (key : String)
    (kind : EventKind) (sev : Severity) (msg : String) (now : ℤ)
    (k' : String) (hne : k' ≠ key) :
    (throttleStep s key kind sev msg now).1.lastEmitted k' = s.lastEmitted k' := by
  rcases hk : s.lastEmitted key with _ | last
  · rw [throttleStep_none s key kind sev msg now hk]
    simp [throttleAdmit, hne]
  · rw [throttleStep_some s key kind sev msg now last hk]
    by_cases h0 : last ≠ 0 ∧ now - last < 4000
    · rw [if_pos h0]
    · rw [if_neg h0]
      simp [throttleAdmit, hne]

/-- A suppressed candidate leaves the whole state unchanged. -/
theorem throttleStep_suppressed (s : AppState) (key : String)
    (kind : EventKind) (sev : Severity) (msg : String) (now : ℤ)
    (h : (throttleStep s key kind sev msg now).2 = none) :
    (throttleStep s key kind sev msg now).1 = s := by
  rcases hk : s.lastEmitted key with _ | last
  · rw [throttleStep_none s key kind sev msg now hk] at h
    exact absurd h (by simp [throttleAdmit])
  · rw [throttleStep_some s key kind sev msg now last hk] at h ⊢
    by_cases h0 : last ≠ 0 ∧ now - last < 4000
    · rw [if_pos h0]
    · rw [if_neg h0] at h
      exact absurd h (by simp [throttleAdmit])

/-! ### Claim theorems -/

/-- C1 counterexample: the claim's own scenario fails on the code at `t=0`.
Admitting key "yaw" at `t=0` stores `lastEmitted["yaw"] = 0`; at `t=1000`
(within the 4000 ms window) the candidate is nevertheless admitted, because
the JS guard `last && now - last < 4000` treats the stored 0 as falsy. -/
theorem throttle_zero_timestamp_counterexample :
    (throttleStep freshState "yaw" EventKind.video Severity.warn "m" 0).1.lastEmitted
        "yaw" = some 0 ∧
      (throttleStep (throttleStep freshState "yaw" EventKind.video Severity.warn "m" 0).1
          "yaw" EventKind.video Severity.warn "m" 1000).2.isSome = true := by
  decide

/-- C1 (amended): the throttle admits a candidate iff its key is absent from
the table, the stored timestamp equals 0 (JS truthiness treats it as
absent), or `now - lastEmitted[key] ≥ 4000`; an admission creates a record
and updates `lastEmitted[key] = now`; and after an admission of key "yaw"
at a nonzero time t=5, a same-key candidate at t=1000 is suppressed and one
at t=4005 is admitted. -/
theorem throttle_cooldown_spec :
    (∀ (s : AppState) (key : String) (kind : EventKind) (sev : Severity)
        (msg : String) (now : ℤ),
      ((throttleStep s key kind sev msg now).2.isSome = true ↔
        (s.lastEmitted key = none ∨ s.lastEmitted key = some 0 ∨
          ∃ last, s.lastEmitted key = some last ∧ 4000 ≤ now - last)) ∧
      ((throttleStep s key kind sev msg now).2.isSome = true →
        (throttleStep s key kind sev msg now).1.lastEmitted key = some now)) ∧
    ((throttleStep (throttleStep freshState "yaw" EventKind.video Severity.warn "m" 5).1
        "yaw" EventKind.video Severity.warn "m" 1000).2 = none ∧
      (throttleStep (throttleStep freshState "yaw" EventKind.video Severity.warn "m" 5).1
          "yaw" EventKind.video Severity.warn "m" 4005).2.isSome = true) :=
  ⟨fun s key kind sev msg now =>
    ⟨throttleStep_isSome_iff s key kind sev msg now,
     throttleStep_admit_updates s key kind sev msg now⟩,
   by decide, by decide⟩

/-- C7: throttle clocks are per-key — `postEvent` for key `key` leaves
`lastEmitted[k']` unchanged for every other key `k'`, and a suppressed
candidate (flag-disabled or within cooldown) leaves the entire state —
throttle table and event list — unchanged. -/
theorem postEvent_per_key_isolation :
    ∀ (s : AppState) (key : String) (category : EventCategory)
      (kind : EventKind) (sev : Severity) (msg : String) (now : ℤ),
      (∀ k' : String, k' ≠ key →
        (postEvent s key category kind sev msg now).1.lastEmitted k' =
          s.lastEmitted k') ∧
      ((postEvent s key category kind sev msg now).2 = none →
        (postEvent s key category kind sev msg now).1 = s) := by
  intro s key category kind sev msg now
  unfold postEvent
  by_cases hf : isFlagEnabled s.mode s.individualFlags s.teamFlags category = true
  · rw [if_pos hf]
    exact ⟨fun k' hne => throttleStep_other_keys s key kind sev msg now k' hne,
           fun h => throttleStep_suppressed s key kind sev msg now h⟩
  · rw [if_neg hf]
    exact ⟨fun _ _ => rfl, fun _ => rfl⟩

/-- C10: every category absent from the active mode's flag map defaults to
enabled. `IndividualFlags` has keys audio/gaze/faces/gadgets, so in
individual mode the absent categories are `capacity`, `presence` and
`system`; `TeamFlags` has keys capacity/presence/gaze, so in team mode the
absent categories are `audio`, `faces`, `gadgets` and `system`. For each
such candidate `isFlagEnabled` returns true (the `?? true` fallback) and
`postEvent` is exactly the throttle step: no flag setting can suppress
it. -/
theorem flag_gating_defaults_to_enabled :
    ∀ (s : AppState) (category : EventCategory) (key : String)
      (kind : EventKind) (sev : Severity) (msg : String) (now : ℤ),
      ((s.mode = ProctorMode.individual ∧
          (category = EventCategory.capacity ∨ category = EventCategory.presence ∨
            category = EventCategory.system)) ∨
        (s.mode = ProctorMode.team ∧
          (category = EventCategory.audio ∨ category = EventCategory.faces ∨
            category = EventCategory.gadgets ∨ category = EventCategory.system))) →
      isFlagEnabled s.mode s.individualFlags s.teamFlags category = true ∧
      postEvent s key category kind sev msg now =
        throttleStep s key kind sev msg now := by
  intro s category key kind sev msg now h
  have hflag : isFlagEnabled s.mode s.individualFlags s.teamFlags category = true := by
    rcases h with ⟨hmode, h⟩ | ⟨hmode, h⟩
    · rcases h with rfl | rfl | rfl <;> rw [hmode] <;> rfl
    · rcases h with rfl | rfl | rfl | rfl <;> rw [hmode] <;> rfl
  refine ⟨hflag, ?_⟩
  unfold postEvent
  rw [if_pos hflag]

/-- C10 witness: with every flag off, an individual-mode `capacity`
candidate and a team-mode `faces` candidate both still reach the
throttle. -/
theorem flag_gating_defaults_to_enabled_witness :
    (isFlagEnabled allFlagsOffIndividual.mode allFlagsOffIndividual.individualFlags
        allFlagsOffIndividual.teamFlags EventCategory.capacity = true ∧
      postEvent allFlagsOffIndividual "team-overflow" EventCategory.capacity
          EventKind.video Severity.warn "m" 0 =
        throttleStep allFlagsOffIndividual "team-overflow" EventKind.video
          Severity.warn "m" 0) ∧
    (isFlagEnabled allFlagsOffTeam.mode allFlagsOffTeam.individualFlags
        allFlagsOffTeam.teamFlags EventCategory.faces = true ∧
      postEvent allFlagsOffTeam "multi-face" EventCategory.faces
          EventKind.video Severity.warn "m" 0 =
        throttleStep allFlagsOffTeam "multi-face" EventKind.video
          Severity.warn "m" 0) :=
  ⟨flag_gating_defaults_to_enabled allFlagsOffIndividual EventCategory.capacity
      "team-overflow" EventKind.video Severity.warn "m" 0
      (Or.inl ⟨rfl, Or.inl rfl⟩),
   flag_gating_defaults_to_enabled allFlagsOffTeam EventCategory.faces
      "multi-face" EventKind.video Severity.warn "m" 0
      (Or.inr ⟨rfl, Or.inr (Or.inl rfl)⟩)⟩

/-- C3: the audio classifier is a two-state hysteresis machine — from
silence it switches to speech exactly when `rms > 0.05`, from speech to
silence exactly when `rms < 0.025`, and otherwise keeps its state with no
transition; on the RMS sequence [0.0, 0.06, 0.03, 0.02] starting in
silence it emits `speech-on` at index 1, nothing at index 2, and
`speech-off` at index 3. -/
theorem audio_hysteresis_machine :
    (∀ rms : ℚ,
      (IndividualProctor.audioStep false rms =
          (true, some IndividualProctor.AudioTransition.speechOn) ↔ rms > 0.05) ∧
      (IndividualProctor.audioStep false rms = (false, none) ↔ ¬rms > 0.05) ∧
      (IndividualProctor.audioStep true rms =
          (false, some IndividualProctor.AudioTransition.speechOff) ↔ rms < 0.025) ∧
      (IndividualProctor.audioStep true rms = (true, none) ↔ ¬rms < 0.025)) ∧
    IndividualProctor.runAudio false [0, 0.06, 0.03, 0.02] =
      (false,
        [none, some IndividualProctor.AudioTransition.speechOn, none,
          some IndividualProctor.AudioTransition.speechOff]) := by
  constructor
  · intro rms
    unfold IndividualProctor.audioStep
    refine ⟨?_, ?_, ?_, ?_⟩ <;>
      split_ifs <;>
        simp_all [IndividualProctor.speechThresholdOn,
          IndividualProctor.speechThresholdOff, Prod.ext_iff]
  · norm_num [IndividualProctor.runAudio, IndividualProctor.audioStep,
      IndividualProctor.speechThresholdOn, IndividualProctor.speechThresholdOff]

/-- C5 counterexample: the posted `yolo-gadget` message does not name the
confidence. Two detection lists that differ only in the gadget's score
(0.35 vs 0.99) produce identical candidates, and the message is literally
"Gadget detected: cell phone" — the score appears nowhere in it. -/
theorem yolo_gadget_message_counterexample :
    IndividualProctor.runDetectorCandidates
        { audio := true, gaze := true, faces := true, gadgets := true }
        [{ label := "cell phone", score := 35/100 }] =
      IndividualProctor.runDetectorCandidates
        { audio := true, gaze := true, faces := true, gadgets := true }
        [{ label := "cell phone", score := 99/100 }] ∧
    (IndividualProctor.runDetectorCandidates
        { audio := true, gaze := true, faces := true, gadgets := true }
        [{ label := "cell phone", score := 99/100 }]).map EventCandidate.message =
      ["Gadget detected: cell phone"] := by
  constructor <;>
    · norm_num [IndividualProctor.runDetectorCandidates, IndividualProctor.gadgetLabels,
        List.find?_cons, List.filter_cons, List.contains_cons]
      decide

/-- C5 (amended): in individual mode with the gadgets flag enabled, whenever
some detection has a label in `gadgetLabels` and score ≥ 0.35, the sample
tick finds a qualifying detection and produces a `yolo-gadget` candidate of
severity `warn` whose message names the found detection's label (the
confidence appears only in the on-screen `gadgetHitText`, not in the
candidate message). -/
theorem yolo_gadget_candidate :
    ∀ (flags : IndividualFlags) (detections : List IndividualProctor.Detection)
      (d : IndividualProctor.Detection),
      flags.gadgets = true → d ∈ detections →
      IndividualProctor.gadgetLabels.contains d.label = true → d.score ≥ 0.35 →
      (detections.find? (fun x =>
          IndividualProctor.gadgetLabels.contains x.label && decide (x.score ≥ 0.35))).isSome
          = true ∧
      (∀ g, detections.find? (fun x =>
            IndividualProctor.gadgetLabels.contains x.label && decide (x.score ≥ 0.35)) =
          some g →
        IndividualProctor.gadgetLabels.contains g.label = true ∧ g.score ≥ 0.35 ∧
        { key := "yolo-gadget", category := EventCategory.gadgets,
          kind := EventKind.video, severity := Severity.warn,
          message := "Gadget detected: " ++ g.label } ∈
          IndividualProctor.runDetectorCandidates flags detections) := by
  intro flags detections d hflag hmem hlabel hscore
  constructor
  · rw [List.find?_isSome]
    refine ⟨d, hmem, ?_⟩
    rw [Bool.and_eq_true, decide_eq_true_eq]
    exact ⟨hlabel, hscore⟩
  · intro g hg
    have hp := List.find?_some hg
    rw [Bool.and_eq_true, decide_eq_true_eq] at hp
    refine ⟨hp.1, hp.2, ?_⟩
    unfold IndividualProctor.runDetectorCandidates
    rw [List.mem_append]
    right
    rw [hg, hflag]
    simp

/-- C5 witness: a single "laptop" detection at score 0.5 with all flags on
yields the `yolo-gadget` candidate naming "laptop". -/
theorem yolo_gadget_candidate_witness :
    { key := "yolo-gadget", category := EventCategory.gadgets,
      kind := EventKind.video, severity := Severity.warn,
      message := "Gadget detected: " ++ "laptop" } ∈
      IndividualProctor.runDetectorCandidates
        { audio := true, gaze := true, faces := true, gadgets := true }
        [{ label := "laptop", score := 1/2 }] := by
  have hfind : ([{ label := "laptop", score := (1:ℚ)/2 }] :
      List IndividualProctor.Detection).find? (fun x =>
        IndividualProctor.gadgetLabels.contains x.label && decide (x.score ≥ 0.35)) =
      some { label := "laptop", score := 1/2 } :=
    List.find?_cons_of_pos _ (by
      rw [Bool.and_eq_true, decide_eq_true_eq]
      exact ⟨by decide, by norm_num⟩)
  have h := (yolo_gadget_candidate
      { audio := true, gaze := true, faces := true, gadgets := true }
      [{ label := "laptop", score := 1/2 }] { label := "laptop", score := 1/2 }
      rfl (by simp) (by decide) (by norm_num)).2
      { label := "laptop", score := 1/2 } hfind
  exact h.2.2

/-- Equation form of the individual gaze rule on computed metrics. -/
theorem indGazeCandidate_some_eq (g : Bool) (m : FaceMetrics) :
    IndividualProctor.gazeCandidate g (some m) =
      if g = true ∧ |m.yawDeg| > IndividualProctor.GAZE_YAW_THRESHOLD then
        some { key := "yaw", category := EventCategory.gaze,
               kind := EventKind.video, severity := Severity.warn,
               message := "Viewer looking away from screen" }
      else none := rfl

/-- Equation form of the team gaze rule on computed metrics. -/
theorem teamGazeCandidate_some_eq (g : Bool) (m : FaceMetrics) :
    TeamProctor.gazeCandidate g (some m) =
      if g = true ∧ |m.yawDeg| > TeamProctor.GAZE_YAW_THRESHOLD then
        some { key := "team-yaw", category := EventCategory.gaze,
               kind := EventKind.video, severity := Severity.warn,
               message := "Primary viewer looking away" }
      else none := rfl

/-- Any candidate the team gaze rule emits is the `team-yaw` record. -/
theorem teamGazeCandidate_some (g : Bool) (m : Option FaceMetrics)
    (c : EventCandidate) (h : TeamProctor.gazeCandidate g m = some c) :
    c.key = "team-yaw" ∧ c.category = EventCategory.gaze ∧
      c.severity = Severity.warn := by
  rcases m with _ | m
  · exact absurd h (by simp [TeamProctor.gazeCandidate])
  · rw [teamGazeCandidate_some_eq] at h
    by_cases hc : g = true ∧ |m.yawDeg| > TeamProctor.GAZE_YAW_THRESHOLD
    · rw [if_pos hc] at h
      cases h
      exact ⟨rfl, rfl, rfl⟩
    · rw [if_neg hc] at h
      exact absurd h (by simp)

/-- C6: with the gaze flag enabled and computed metrics for the primary
face, a gaze candidate is produced exactly when |yawDeg| strictly exceeds
the mode's threshold — 35° (key "yaw", severity warn) in individual mode,
40° (key "team-yaw", severity warn) in team mode; in particular at
|yawDeg| equal to the threshold no candidate is produced. -/
theorem gaze_candidate_iff_threshold :
    ∀ m : FaceMetrics,
      ((IndividualProctor.gazeCandidate true (some m)).isSome = true ↔
        |m.yawDeg| > 35) ∧
      (∀ c, IndividualProctor.gazeCandidate true (some m) = some c →
        c.key = "yaw" ∧ c.category = EventCategory.gaze ∧
          c.severity = Severity.warn) ∧
      ((TeamProctor.gazeCandidate true (some m)).isSome = true ↔
        |m.yawDeg| > 40) ∧
      (∀ c, TeamProctor.gazeCandidate true (some m) = some c →
        c.key = "team-yaw" ∧ c.category = EventCategory.gaze ∧
          c.severity = Severity.warn) := by
  intro m
  refine ⟨?_, ?_, ?_, ?_⟩
  · rw [indGazeCandidate_some_eq]
    by_cases h : |m.yawDeg| > IndividualProctor.GAZE_YAW_THRESHOLD
    · rw [if_pos ⟨rfl, h⟩]
      simpa using h
    · rw [if_neg fun hc => h hc.2]
      simpa using h
  · intro c h
    rw [indGazeCandidate_some_eq] at h
    by_cases hc : (true = true) ∧ |m.yawDeg| > IndividualProctor.GAZE_YAW_THRESHOLD
    · rw [if_pos hc] at h
      cases h
      exact ⟨rfl, rfl, rfl⟩
    · rw [if_neg hc] at h
      exact absurd h (by simp)
  · rw [teamGazeCandidate_some_eq]
    by_cases h : |m.yawDeg| > TeamProctor.GAZE_YAW_THRESHOLD
    · rw [if_pos ⟨rfl, h⟩]
      simpa using h
    · rw [if_neg fun hc => h hc.2]
      simpa using h
  · exact fun c h => teamGazeCandidate_some true (some m) c h

/-- C8: a mid-session switch from individual to team mode resets the
ActivityState — the individual proctor's `speechActive` starts over as
`false` (its `useState(false)` re-initializes on remount), so the audio
step from the post-switch state can never emit `speech-off` whatever the
RMS is; moreover no team-mode tick ever produces a `speech-off` (or any
audio-category) candidate. -/
theorem mode_switch_resets_speech_state :
    ∀ s : SystemState, s.mode = ProctorMode.individual →
      (switchMode s ProctorMode.team).individual.speechActive = false ∧
      (∀ rms : ℚ,
        (IndividualProctor.audioStep
            (switchMode s ProctorMode.team).individual.speechActive rms).2 ≠
          some IndividualProctor.AudioTransition.speechOff) ∧
      (∀ (flags : TeamFlags) (limit : ℕ) (faces : List FaceLandmarks) (w : ℝ)
          (now lastTs : ℤ) (c : EventCandidate),
        c ∈ TeamProctor.analyzeCandidates flags limit faces w now lastTs →
          c.key ≠ "speech-off" ∧ c.category ≠ EventCategory.audio) := by
  intro s hmode
  have hsw : switchMode s ProctorMode.team =
      { mode := ProctorMode.team, individual := initIndividualSessionState } := by
    unfold switchMode
    rw [hmode, if_neg (by decide)]
  refine ⟨by rw [hsw]; rfl, fun rms => ?_, fun flags limit faces w now lastTs c hc => ?_⟩
  · rw [hsw]
    show (IndividualProctor.audioStep false rms).2 ≠ _
    unfold IndividualProctor.audioStep
    split_ifs <;> simp_all
  · simp only [TeamProctor.analyzeCandidates, List.mem_append] at hc
    rcases hc with (hc | hc) | hc
    · split at hc
      · rw [List.mem_singleton] at hc
        subst hc
        exact ⟨by simp, by simp⟩
      · exact absurd hc (by simp)
    · split at hc
      · rw [List.mem_singleton] at hc
        subst hc
        exact ⟨by simp, by simp⟩
      · exact absurd hc (by simp)
    · split at hc
      · rw [Option.mem_toList, Option.mem_def] at hc
        have h := teamGazeCandidate_some _ _ _ hc
        rw [h.1, h.2.1]
        exact ⟨by simp, by simp⟩
      · exact absurd hc (by simp)

/-- C8 witness: a stale speech-active individual state, switched to team
mode, has `speechActive = false` and an RMS of 0.01 (below the off
threshold) cannot emit `speech-off`. -/
theorem mode_switch_resets_speech_state_witness :
    (switchMode staleSpeechState ProctorMode.team).individual.speechActive = false ∧
      (IndividualProctor.audioStep
          (switchMode staleSpeechState ProctorMode.team).individual.speechActive
          0.01).2 ≠
        some IndividualProctor.AudioTransition.speechOff := by
  have h := mode_switch_resets_speech_state staleSpeechState rfl
  exact ⟨h.1, h.2.1 0.01⟩

/-- Function `clamp` stays above its lower bound when the bounds are ordered. -/
theorem le_clamp (v lo hi : ℝ) (h : lo ≤ hi) : lo ≤ clamp v lo hi := by
  unfold clamp
  exact le_min (le_max_right v lo) h

/-- Function `clamp` never exceeds its upper bound. -/
theorem clamp_le (v lo hi : ℝ) : clamp v lo hi ≤ hi := by
  unfold clamp
  exact min_le_right _ _

/-- Coinciding points are at `Math.hypot` distance 0. -/
theorem distance2D_self (a : LandmarkPoint) : distance2D a a = 0 := by
  unfold distance2D
  simp

/-- Function `computeFaceMetrics` fails on frame width 0 (`!videoWidth`). -/
theorem computeFaceMetrics_width_zero (lms : FaceLandmarks) :
    computeFaceMetrics lms 0 = none := by
  unfold computeFaceMetrics
  rw [if_pos rfl]

/-- The value `computeFaceMetrics` returns once every guard has passed. -/
theorem computeFaceMetrics_eq_some (lms : FaceLandmarks) (w : ℝ)
    (L R N : LandmarkPoint) (hw : w ≠ 0)
    (hL : getLandmark lms LANDMARK_INDEX.leftEyeOuter = some L)
    (hR : getLandmark lms LANDMARK_INDEX.rightEyeOuter = some R)
    (hN : getLandmark lms LANDMARK_INDEX.noseTip = some N)
    (hd : distance2D L R ≠ 0) :
    computeFaceMetrics lms w = some
      { distanceCm := clamp
          ((DEFAULT_IPD_CM * (BASELINE_FOCAL_PX * (w / BASELINE_VIDEO_WIDTH))) /
            (distance2D L R * w)) DISTANCE_RANGE_CM.min DISTANCE_RANGE_CM.max,
        yawDeg := clamp
          (-(Real.arcsin (clamp ((N.x - (L.x + R.x) / 2) /
              (distance2D L R * YAW_OFFSET_SCALE)) (-1) 1)) * RAD2DEG)
          (-HEAD_YAW_MAX_DEG) HEAD_YAW_MAX_DEG } := by
  unfold computeFaceMetrics
  rw [if_neg hw, hL, hR, hN]
  dsimp only
  rw [if_neg hd]

/-- Function `clamp` is the identity between ordered bounds. -/
theorem clamp_of_le_of_le (v lo hi : ℝ) (h1 : lo ≤ v) (h2 : v ≤ hi) :
    clamp v lo hi = v := by
  unfold clamp
  rw [max_eq_left h1]
  exact min_eq_left h2

/-- When both eye lookups return the same point, `!interpupilNorm` fires
and `computeFaceMetrics` returns `none`, whatever the width. -/
theorem computeFaceMetrics_coincident_none (lms : FaceLandmarks) (w : ℝ)
    (P N : LandmarkPoint)
    (hL : getLandmark lms LANDMARK_INDEX.leftEyeOuter = some P)
    (hR : getLandmark lms LANDMARK_INDEX.rightEyeOuter = some P)
    (hN : getLandmark lms LANDMARK_INDEX.noseTip = some N) :
    computeFaceMetrics lms w = none := by
  by_cases hw : w = 0
  · rw [hw]
    exact computeFaceMetrics_width_zero lms
  · unfold computeFaceMetrics
    rw [if_neg hw, hL, hR, hN]
    dsimp only
    rw [if_pos (distance2D_self P)]

/-- Function `computeFaceMetrics` succeeds exactly when the width is nonzero, the
three landmarks are present, and the eye landmarks do not coincide. -/
theorem computeFaceMetrics_isSome_iff (lms : FaceLandmarks) (w : ℝ) :
    (computeFaceMetrics lms w).isSome = true ↔
      (w ≠ 0 ∧ ∃ L R N : LandmarkPoint,
        getLandmark lms LANDMARK_INDEX.leftEyeOuter = some L ∧
        getLandmark lms LANDMARK_INDEX.rightEyeOuter = some R ∧
        getLandmark lms LANDMARK_INDEX.noseTip = some N ∧
        distance2D L R ≠ 0) := by
  by_cases hw : w = 0
  · subst hw
    rw [computeFaceMetrics_width_zero]
    simp
  · rcases hL : getLandmark lms LANDMARK_INDEX.leftEyeOuter with _ | L
    · have hnone : computeFaceMetrics lms w = none := by
        unfold computeFaceMetrics
        rw [if_neg hw, hL]
      rw [hnone]
      simp
    · rcases hR : getLandmark lms LANDMARK_INDEX.rightEyeOuter with _ | R
      · have hnone : computeFaceMetrics lms w = none := by
          unfold computeFaceMetrics
          rw [if_neg hw, hL, hR]
        rw [hnone]
        simp
      · rcases hN : getLandmark lms LANDMARK_INDEX.noseTip with _ | N
        · have hnone : computeFaceMetrics lms w = none := by
            unfold computeFaceMetrics
            rw [if_neg hw, hL, hR, hN]
          rw [hnone]
          simp
        · by_cases hd : distance2D L R = 0
          · have hnone : computeFaceMetrics lms w = none := by
              unfold computeFaceMetrics
              rw [if_neg hw, hL, hR, hN]
              dsimp only
              rw [if_pos hd]
            rw [hnone]
            simp only [Option.isSome_none, Bool.false_eq_true, false_iff, not_and]
            intro _
            rintro ⟨L', R', N', hL', hR', hN', hd'⟩
            cases hL'
            cases hR'
            exact hd' hd
          · rw [computeFaceMetrics_eq_some lms w L R N hw hL hR hN hd]
            simp only [Option.isSome_some, true_iff]
            exact ⟨hw, L, R, N, rfl, rfl, rfl, hd⟩

/-- C2 counterexample: a 264-landmark face whose eye landmarks coincide.
The frame width 1280 is nonzero and all three required landmarks are
present, yet `computeFaceMetrics` returns `none` — refuting "for every
other input it returns a FaceMetrics value". -/
theorem compute_face_metrics_totality_counterexample :
    computeFaceMetrics coincidentFace 1280 = none ∧ (1280 : ℝ) ≠ 0 ∧
      (getLandmark coincidentFace LANDMARK_INDEX.leftEyeOuter).isSome = true ∧
      (getLandmark coincidentFace LANDMARK_INDEX.rightEyeOuter).isSome = true ∧
      (getLandmark coincidentFace LANDMARK_INDEX.noseTip).isSome = true := by
  have hmem : ∀ i : ℕ, i < 264 →
      getLandmark coincidentFace i = some { x := 1/2, y := 1/2 } := by
    intro i hi
    unfold getLandmark coincidentFace
    rw [List.getElem?_replicate, if_pos hi]
  exact ⟨computeFaceMetrics_coincident_none coincidentFace 1280 _ _
      (hmem 263 (by norm_num)) (hmem 33 (by norm_num)) (hmem 1 (by norm_num)),
   by norm_num,
   by rw [hmem LANDMARK_INDEX.leftEyeOuter (by decide)]; rfl,
   by rw [hmem LANDMARK_INDEX.rightEyeOuter (by decide)]; rfl,
   by rw [hmem LANDMARK_INDEX.noseTip (by decide)]; rfl⟩


/-- C2 (amended): `computeFaceMetrics` returns `none` when the width is 0
or a required landmark is absent, and on every other input it returns a
value exactly when the two eye landmarks do not coincide (nonzero
normalized interpupillary distance). -/
theorem compute_face_metrics_none_conditions :
    ∀ (lms : FaceLandmarks) (w : ℝ),
      (computeFaceMetrics lms w).isSome = true ↔
        (w ≠ 0 ∧ ∃ L R N : LandmarkPoint,
          getLandmark lms LANDMARK_INDEX.leftEyeOuter = some L ∧
          getLandmark lms LANDMARK_INDEX.rightEyeOuter = some R ∧
          getLandmark lms LANDMARK_INDEX.noseTip = some N ∧
          distance2D L R ≠ 0) :=
  fun lms w => computeFaceMetrics_isSome_iff lms w

/-- C9: whenever the left-eye-outer and right-eye-outer lookups return
coinciding points (normalized interpupillary distance 0),
`computeFaceMetrics` returns `none`, even though the frame width is
nonzero and all three required landmarks are present — a failure case the
spec's list omits. -/
theorem coincident_eyes_metrics_none :
    ∀ (lms : FaceLandmarks) (w : ℝ) (L R N : LandmarkPoint),
      getLandmark lms LANDMARK_INDEX.leftEyeOuter = some L →
      getLandmark lms LANDMARK_INDEX.rightEyeOuter = some R →
      getLandmark lms LANDMARK_INDEX.noseTip = some N →
      L = R → w ≠ 0 →
      computeFaceMetrics lms w = none := by
  intro lms w L R N hL hR hN hLR hw
  subst hLR
  exact computeFaceMetrics_coincident_none lms w L N hL hR hN

/-- C9 witness: the coinciding-eyes face at (0.3, 0.4), width 1280. -/
theorem coincident_eyes_metrics_none_witness :
    computeFaceMetrics coincidentFace2 1280 = none := by
  have hmem : ∀ i : ℕ, i < 264 →
      getLandmark coincidentFace2 i = some { x := 3/10, y := 2/5 } := by
    intro i hi
    unfold getLandmark coincidentFace2
    rw [List.getElem?_replicate, if_pos hi]
  exact coincident_eyes_metrics_none coincidentFace2 1280
    { x := 3/10, y := 2/5 } { x := 3/10, y := 2/5 } { x := 3/10, y := 2/5 }
    (hmem 263 (by norm_num)) (hmem 33 (by norm_num)) (hmem 1 (by norm_num))
    rfl (by norm_num)

/-- The left-eye-outer lookup (index 263) on the spec's synthetic face. -/
theorem sampleFace_left :
    getLandmark sampleFace LANDMARK_INDEX.leftEyeOuter =
      some { x := 3/5, y := 1/2 } := by
  show getLandmark sampleFace 263 = _
  unfold getLandmark sampleFace
  rw [List.getElem?_set]
  simp

/-- The right-eye-outer lookup (index 33) on the spec's synthetic face. -/
theorem sampleFace_right :
    getLandmark sampleFace LANDMARK_INDEX.rightEyeOuter =
      some { x := 2/5, y := 1/2 } := by
  show getLandmark sampleFace 33 = _
  unfold getLandmark sampleFace
  rw [List.getElem?_set, List.getElem?_set]
  simp

/-- The nose-tip lookup (index 1) on the spec's synthetic face. -/
theorem sampleFace_nose :
    getLandmark sampleFace LANDMARK_INDEX.noseTip =
      some { x := (1:ℝ)/2, y := 1/2 } := by
  show getLandmark sampleFace 1 = _
  unfold getLandmark sampleFace
  rw [List.getElem?_set, List.getElem?_set, List.getElem?_replicate]
  simp

/-- The spec's synthetic face at width 1280 evaluates to distance
4725/256 cm (≈ 18.5) and yaw exactly 0°. -/
theorem sample_metrics_eq :
    computeFaceMetrics sampleFace 1280 =
      some { distanceCm := 4725/256, yawDeg := 0 } := by
  have hd : distance2D { x := (3:ℝ)/5, y := 1/2 } { x := (2:ℝ)/5, y := 1/2 } = 1/5 := by
    show Real.sqrt ((((3:ℝ)/5) - (2:ℝ)/5) ^ 2 + (((1:ℝ)/2) - (1:ℝ)/2) ^ 2) = 1/5
    rw [show (((3:ℝ)/5) - (2:ℝ)/5) ^ 2 + (((1:ℝ)/2) - (1:ℝ)/2) ^ 2 = ((1:ℝ)/5) ^ 2 by
      norm_num]
    exact Real.sqrt_sq (by norm_num)
  rw [computeFaceMetrics_eq_some sampleFace 1280 _ _ _ (by norm_num)
    sampleFace_left sampleFace_right sampleFace_nose (by rw [hd]; norm_num), hd]
  norm_num [clamp, DEFAULT_IPD_CM, BASELINE_FOCAL_PX, BASELINE_VIDEO_WIDTH,
    YAW_OFFSET_SCALE, HEAD_YAW_MAX_DEG, DISTANCE_RANGE_CM, RAD2DEG,
    Real.arcsin_zero, max_eq_left, min_eq_left, FaceMetrics.mk.injEq]

/-- C4: whenever `computeFaceMetrics` returns a value, its `distanceCm`
lies in [10, 150] and its `yawDeg` in [-90, 90] — both are produced by
`clamp`; in the ℝ model there are no NaN or infinite values, so the
returned components are always finite reals in these ranges. -/
theorem face_metrics_within_clamped_ranges :
    ∀ (lms : FaceLandmarks) (w : ℝ) (m : FaceMetrics),
      computeFaceMetrics lms w = some m →
      (10 ≤ m.distanceCm ∧ m.distanceCm ≤ 150) ∧
        (-90 ≤ m.yawDeg ∧ m.yawDeg ≤ 90) := by
  intro lms w m h
  have hs : (computeFaceMetrics lms w).isSome = true := by
    rw [h]
    rfl
  obtain ⟨hw, L, R, N, hL, hR, hN, hd⟩ := (computeFaceMetrics_isSome_iff lms w).1 hs
  rw [computeFaceMetrics_eq_some lms w L R N hw hL hR hN hd, Option.some.injEq] at h
  subst h
  refine ⟨⟨?_, ?_⟩, ?_, ?_⟩
  · exact le_clamp _ _ _ (by norm_num [DISTANCE_RANGE_CM])
  · exact clamp_le _ _ _
  · exact le_clamp _ _ _ (by norm_num [HEAD_YAW_MAX_DEG])
  · exact clamp_le _ _ _

/-- C4 witness: the spec's synthetic face at width 1280 produces metrics,
and they satisfy the clamped ranges. -/
theorem face_metrics_within_clamped_ranges_witness :
    computeFaceMetrics sampleFace 1280 =
        some { distanceCm := 4725/256, yawDeg := 0 } ∧
      ((10 ≤ ((4725:ℝ)/256) ∧ ((4725:ℝ)/256) ≤ 150) ∧
        ((-90:ℝ) ≤ 0 ∧ (0:ℝ) ≤ 90)) :=
  ⟨sample_metrics_eq,
   face_metrics_within_clamped_ranges sampleFace 1280
     { distanceCm := 4725/256, yawDeg := 0 } sample_metrics_eq⟩
